import Mathlib

/-!
Verification of `motivations/plot_IfYouFilterTheyWillCome.py`, a linear
demonstration script: it builds a band registry, simulates power-law
signals, band-pass filters them, and plots the results.

The script's own code (under `src/`) is the authority for the sequencing,
the literal parameters and the call sites.  The operations it invokes live
outside `src/`: the `Bands` registry is this repository's `fooof.bands.Bands`
(not shipped under `src/`), and the simulator, filter, time-axis builder and
seed setter are external collaborators (`neurodsp`), which the spec treats
as opaque capability providers described only by their contracts.  Those
operations are therefore modelled from the spec, as marked on each
definition; their internals (spectral shaping, filter design) stand in for
behaviour the spec declares out of scope, while the interface properties the
spec does state (lengths, ordering, determinism, purity) are modelled
faithfully.
-/

/-- Modelled from the spec: `fooof.bands.Bands` (this repository's band
registry, not present under `src/`).  It accepts a configuration table
(name → [low, high]) kept in definition order. -/
structure Bands where
  bands : List (String × ℚ × ℚ)

/-- Modelled from the spec: iteration over the registry yields
(name, range) pairs in definition order (insertion-order preservation). -/
def Bands.iter (b : Bands) : List (String × ℚ × ℚ) :=
  b.bands

/-- Modelled from the spec: `len(bands)`, the number of registered bands. -/
def Bands.len (b : Bands) : Nat :=
  b.bands.length

/-- Modelled from the spec: attribute-style lookup by band name
(`bands.beta`), returning the range defined for that name. -/
def Bands.lookup (b : Bands) (label : String) : Option (ℚ × ℚ) :=
  (b.bands.find? (fun p => p.1 == label)).map Prod.snd

/-- Modelled from the spec: one step of the process-wide seedable random
source (`numpy` global generator, internals opaque); a linear congruential
update stands in. -/
def rngNext (s : Nat) : Nat :=
  (1103515245 * s + 12345) % 2147483648

/-- Modelled from the spec: `neurodsp.utils.set_random_seed` — sets the
process-wide random state to the seed value, discarding the prior state. -/
def set_random_seed (v : Nat) (_prev : Nat) : Nat :=
  v

/-- Draw `n` raw samples from the random source, threading the state. -/
def genSamples : Nat → Nat → List ℚ × Nat
  | 0, s => ([], s)
  | n + 1, s =>
    let s2 := rngNext s
    let rest := genSamples n s2
    (((s2 : ℚ) / 2147483648 - 1 / 2) :: rest.1, rest.2)

/-- Modelled from the spec: the number of samples for a duration (seconds)
and sampling rate, `sample_rate × duration` rounded up to a whole count
("within rounding"). -/
def nSamples (d : ℚ) (fs : Nat) : Nat :=
  let q := d * (fs : ℚ)
  (q.num.toNat + q.den - 1) / q.den

/-- Modelled from the spec: per-sample shaping by the spectral exponent and
the optional frequency bounds.  The spec declares the internals of power-law
synthesis out of scope; a pointwise scaling stands in. -/
def shapeSample (e : ℚ) (fr : Option (Option ℚ × ℚ)) (x : ℚ) : ℚ :=
  let y := (1 - e) * x
  match fr with
  | none => y
  | some p => y * (p.2 / (p.2 + 1))

/-- Modelled from the spec: `neurodsp.sim.sim_powerlaw` — produces
`sample_rate × duration` (within rounding) random samples from the
process-wide random source, returning the samples and the advanced state.
Spectral internals are opaque in the spec and stood in by `shapeSample`. -/
def sim_powerlaw (dur : ℚ) (fs : Nat) (exponent : ℚ)
    (f_range : Option (Option ℚ × ℚ)) (st : Nat) : List ℚ × Nat :=
  let g := genSamples (nSamples dur fs) st
  (g.1.map (shapeSample exponent f_range), g.2)

/-- Modelled from the spec: `neurodsp.utils.create_times` — the time axis
derived solely from duration and sampling rate, sample `i` at time `i / fs`. -/
def create_times (dur : ℚ) (fs : Nat) : List ℚ :=
  (List.range (nSamples dur fs)).map (fun i : ℕ => (i : ℚ) / (fs : ℚ))

/-- Modelled from the spec: the pass-band gain of the filter; exact filter
design is delegated to the external collaborator, a flat gain stands in. -/
def bandGain (fs : Nat) (fr : ℚ × ℚ) : ℚ :=
  (fr.2 - fr.1) / ((fs : ℚ) / 2)

/-- Modelled from the spec: `neurodsp.filt.filter_signal` — produces a new
sample sequence of the same length as the input, with content outside the
range attenuated (design opaque, stood in by a pointwise gain). -/
def filter_signal (sg : List ℚ) (fs : Nat) (mode : String) (fr : ℚ × ℚ) :
    List ℚ :=
  sg.map (fun x => (if mode = "bandpass" then bandGain fs fr else 1) * x)

/-- Modelled from the spec: `np.hstack` on one-dimensional arrays — a simple
sequence-append of the segments, not a semantic merge. -/
def np_hstack (ls : List (List ℚ)) : List ℚ :=
  ls.flatten

/- The script itself (straight-line values, in source order). -/

/-- The band registry literal of the script (source lines 48–53). -/
def bands : Bands :=
  ⟨[("delta", (2, 4)), ("theta", (4, 8)), ("alpha", (8, 13)),
    ("beta", (13, 30)), ("low_gamma", (30, 50)), ("high_gamma", (50, 150))]⟩

/-- Simulation setting `s_rate = 1000` (source line 71). -/
def s_rate : Nat := 1000

/-- Simulation setting `n_seconds = 4` (source line 72). -/
def n_seconds : ℚ := 4

/-- Random state after `set_random_seed(21)` (source line 66); the prior
process state is arbitrary, taken as 0. -/
def rng0 : Nat := set_random_seed 21 0

/-- `times = create_times(n_seconds, s_rate)` (source line 73). -/
def times : List ℚ := create_times n_seconds s_rate

/-- `sig = sim_powerlaw(n_seconds, s_rate, exponent=-1)` (source line 78),
with the advanced random state. -/
def sigP : List ℚ × Nat := sim_powerlaw n_seconds s_rate (-1) none rng0

/-- The simulated aperiodic signal. -/
def sig : List ℚ := sigP.1

/-- The pre-allocated subplot axis handles, `plt.subplots(len(bands), 1)`
(source line 97), one handle per band. -/
def axes : List Nat := List.range (Bands.len bands)

/-- The pairs produced by `zip(axes, bands)` driving the band-by-band
filtering loop (source line 98). -/
def bandLoopPairs : List (Nat × (String × ℚ × ℚ)) :=
  axes.zip (Bands.iter bands)

/-- The filtered signal of each loop iteration
(`filter_signal(sig, s_rate, 'bandpass', f_range)`, source line 102). -/
def band_sigs : List (List ℚ) :=
  (Bands.iter bands).map (fun b => filter_signal sig s_rate "bandpass" b.2)

/-- `sig_comp1 = sim_powerlaw(n_seconds/2, s_rate, exponent=-1.5,
f_range=(None, 150))` (source line 143). -/
def sig_comp1P : List ℚ × Nat :=
  sim_powerlaw (n_seconds / 2) s_rate (-(3 / 2)) (some (none, 150)) sigP.2

/-- First composite segment. -/
def sig_comp1 : List ℚ := sig_comp1P.1

/-- `sig_comp2 = sim_powerlaw(n_seconds/2, s_rate, exponent=-1,
f_range=(None, 150))` (source line 144). -/
def sig_comp2P : List ℚ × Nat :=
  sim_powerlaw (n_seconds / 2) s_rate (-1) (some (none, 150)) sig_comp1P.2

/-- Second composite segment. -/
def sig_comp2 : List ℚ := sig_comp2P.1

/-- `sig_delta_ap = np.hstack([sig_comp1, sig_comp2])` (source line 147). -/
def sig_delta_ap : List ℚ := np_hstack [sig_comp1, sig_comp2]

/-- The range the script reads as `bands.beta` (source line 163). -/
def bandsBeta : ℚ × ℚ := (Bands.lookup bands "beta").getD (0, 0)

/-- The range the script reads as `bands.high_gamma` (source line 181). -/
def bandsHighGamma : ℚ × ℚ := (Bands.lookup bands "high_gamma").getD (0, 0)

/-- `band_sig = filter_signal(sig_delta_ap, s_rate, 'bandpass', bands.beta)`
(source line 163). -/
def band_sig_beta : List ℚ :=
  filter_signal sig_delta_ap s_rate "bandpass" bandsBeta

/-- `band_sig = filter_signal(sig_delta_ap, s_rate, 'bandpass',
bands.high_gamma)` (source line 181). -/
def band_sig_high_gamma : List ℚ :=
  filter_signal sig_delta_ap s_rate "bandpass" bandsHighGamma

/-- Every `(time_axis, samples)` pair the script hands to
`plot_time_series`, in call order (source lines 83, 105, 152, 166, 184). -/
def plotCalls : List (List ℚ × List ℚ) :=
  (times, sig) ::
    ((band_sigs.map (fun bs => (times, bs))) ++
      [(times, sig_delta_ap), (times, band_sig_beta),
       (times, band_sig_high_gamma)])

/-- Every frequency range the script passes to `filter_signal`, in call
order: the six loop bands, then `bands.beta`, then `bands.high_gamma`. -/
def filterCallRanges : List (ℚ × ℚ) :=
  ((Bands.iter bands).map (fun b => b.2)) ++ [bandsBeta, bandsHighGamma]

/- The script as a sequence of states, for the mutation-freedom claims:
each assignment statement of the script is a state transition that writes
exactly the variable it assigns. -/

/-- The script's mutable state: the process random state, the band registry
and the script's array variables. -/
structure ScriptState where
  rng : Nat
  bandsReg : Bands
  timesAx : List ℚ
  sigV : List ℚ
  sigComp1V : List ℚ
  sigComp2V : List ℚ
  sigDeltaV : List ℚ
  bandSigV : List ℚ

/-- State after the registry is constructed (source lines 48–53); the
array variables are not yet bound. -/
def initState : ScriptState :=
  ⟨0, bands, [], [], [], [], [], []⟩

/-- `set_random_seed(21)` as a state transition (source line 66). -/
def stepSetSeed (v : Nat) (st : ScriptState) : ScriptState :=
  { st with rng := set_random_seed v st.rng }

/-- `times = create_times(...)` as a state transition (source line 73). -/
def stepCreateTimes (st : ScriptState) : ScriptState :=
  { st with timesAx := create_times n_seconds s_rate }

/-- `sig = sim_powerlaw(...)` as a state transition (source line 78). -/
def stepSimSig (st : ScriptState) : ScriptState :=
  let p := sim_powerlaw n_seconds s_rate (-1) none st.rng
  { st with sigV := p.1, rng := p.2 }

/-- One loop iteration `band_sig = filter_signal(sig, s_rate, 'bandpass',
f_range)` as a state transition (source line 102): it writes `band_sig`
only; the input `sig` is read, never written. -/
def stepFilterBand (fr : ℚ × ℚ) (st : ScriptState) : ScriptState :=
  { st with bandSigV := filter_signal st.sigV s_rate "bandpass" fr }

/-- `sig_comp1 = sim_powerlaw(...)` as a state transition (source line 143). -/
def stepSimComp1 (st : ScriptState) : ScriptState :=
  let p := sim_powerlaw (n_seconds / 2) s_rate (-(3 / 2)) (some (none, 150)) st.rng
  { st with sigComp1V := p.1, rng := p.2 }

/-- `sig_comp2 = sim_powerlaw(...)` as a state transition (source line 144). -/
def stepSimComp2 (st : ScriptState) : ScriptState :=
  let p := sim_powerlaw (n_seconds / 2) s_rate (-1) (some (none, 150)) st.rng
  { st with sigComp2V := p.1, rng := p.2 }

/-- `sig_delta_ap = np.hstack([...])` as a state transition (source line 147). -/
def stepHstack (st : ScriptState) : ScriptState :=
  { st with sigDeltaV := np_hstack [st.sigComp1V, st.sigComp2V] }

/-- `band_sig = filter_signal(sig_delta_ap, s_rate, 'bandpass', fr)` as a
state transition (source lines 163 and 181): it writes `band_sig` only;
the input `sig_delta_ap` is read, never written. -/
def stepFilterComposite (fr : ℚ × ℚ) (st : ScriptState) : ScriptState :=
  { st with bandSigV := filter_signal st.sigDeltaV s_rate "bandpass" fr }

/-- State after `set_random_seed(21)`. -/
def stA : ScriptState := stepSetSeed 21 initState

/-- State after `times = create_times(...)`. -/
def stB : ScriptState := stepCreateTimes stA

/-- State after `sig = sim_powerlaw(...)`. -/
def stC : ScriptState := stepSimSig stB

/-- State after the delta-band loop iteration. -/
def stD : ScriptState := stepFilterBand (2, 4) stC

/-- State after the theta-band loop iteration. -/
def stE : ScriptState := stepFilterBand (4, 8) stD

/-- State after the alpha-band loop iteration. -/
def stF : ScriptState := stepFilterBand (8, 13) stE

/-- State after the beta-band loop iteration. -/
def stG : ScriptState := stepFilterBand (13, 30) stF

/-- State after the low-gamma loop iteration. -/
def stH : ScriptState := stepFilterBand (30, 50) stG

/-- State after the high-gamma loop iteration. -/
def stI : ScriptState := stepFilterBand (50, 150) stH

/-- State after `sig_comp1 = sim_powerlaw(...)`. -/
def stJ : ScriptState := stepSimComp1 stI

/-- State after `sig_comp2 = sim_powerlaw(...)`. -/
def stK : ScriptState := stepSimComp2 stJ

/-- State after `sig_delta_ap = np.hstack([...])`. -/
def stL : ScriptState := stepHstack stK

/-- State after the beta filtering of the composite signal. -/
def stM : ScriptState := stepFilterComposite bandsBeta stL

/-- State after the high-gamma filtering of the composite signal. -/
def stN : ScriptState := stepFilterComposite bandsHighGamma stM

/-- Every state the script passes through, in program order. -/
def scriptTrace : List ScriptState :=
  [initState, stA, stB, stC, stD, stE, stF, stG, stH, stI, stJ, stK, stL,
   stM, stN]

/-- A filter call against an explicit array store (addresses are indices,
allocation appends): the input array is read at its address and the result
is written to a fresh address, so existing arrays are untouched. -/
def filterInStore (store : List (List ℚ)) (a : Nat) (fr : ℚ × ℚ) :
    List (List ℚ) × Nat :=
  (store ++ [filter_signal (store.getD a []) s_rate "bandpass" fr],
   store.length)

/- Helper lemmas. -/

/-- `genSamples` produces exactly the requested number of samples. -/
theorem genSamples_length (n : Nat) : ∀ s : Nat, (genSamples n s).1.length = n := by
  induction n with
  | zero => intro s; rfl
  | succ k ih =>
    intro s
    simp only [genSamples, List.length_cons]
    exact congrArg Nat.succ (ih (rngNext s))

/-- The simulator produces `nSamples dur fs` samples. -/
theorem sim_powerlaw_length (dur : ℚ) (fs : Nat) (e : ℚ)
    (fr : Option (Option ℚ × ℚ)) (st : Nat) :
    (sim_powerlaw dur fs e fr st).1.length = nSamples dur fs := by
  simp [sim_powerlaw, genSamples_length]

/-- The filter preserves length, whatever the mode and range. -/
theorem filter_signal_length (sg : List ℚ) (fs : Nat) (mode : String)
    (fr : ℚ × ℚ) : (filter_signal sg fs mode fr).length = sg.length := by
  simp [filter_signal]

/-- The sample count of the full four-second simulation. -/
theorem nSamples_full : nSamples n_seconds s_rate = 4000 := by
  norm_num [nSamples, n_seconds, s_rate]
  decide

/-- The sample count of each two-second composite segment. -/
theorem nSamples_half : nSamples (n_seconds / 2) s_rate = 2000 := by
  norm_num [nSamples, n_seconds, s_rate]
  decide

/-- The script's main signal has 4000 samples. -/
theorem sig_length : sig.length = 4000 := by
  have h := sim_powerlaw_length n_seconds s_rate (-1) none rng0
  simpa [sig, sigP] using h.trans nSamples_full

/-- The script's time axis has 4000 entries. -/
theorem times_length : times.length = 4000 := by
  unfold times create_times
  rw [List.length_map, List.length_range, nSamples_full]

/-- Each composite segment has 2000 samples. -/
theorem sig_comp1_length : sig_comp1.length = 2000 := by
  have h := sim_powerlaw_length (n_seconds / 2) s_rate (-(3 / 2))
    (some (none, 150)) sigP.2
  simpa [sig_comp1, sig_comp1P] using h.trans nSamples_half

/-- Second composite segment has 2000 samples. -/
theorem sig_comp2_length : sig_comp2.length = 2000 := by
  have h := sim_powerlaw_length (n_seconds / 2) s_rate (-1)
    (some (none, 150)) sig_comp1P.2
  simpa [sig_comp2, sig_comp2P] using h.trans nSamples_half

/-- The composite signal is the plain append of its two segments. -/
theorem sig_delta_ap_append : sig_delta_ap = sig_comp1 ++ sig_comp2 := by
  simp [sig_delta_ap, np_hstack]

/-- The composite signal has 4000 samples. -/
theorem sig_delta_ap_length : sig_delta_ap.length = 4000 := by
  rw [sig_delta_ap_append, List.length_append, sig_comp1_length,
    sig_comp2_length]

/- The claims. -/

/-- C1: for every input sample sequence of length L, applying the band-pass
filter (`filter_signal` with mode `'bandpass'` and a (low, high) range)
returns a sample sequence of the same length L as the input. -/
theorem spec_c1 : ∀ (sg : List ℚ) (fs : Nat) (fr : ℚ × ℚ),
    (filter_signal sg fs "bandpass" fr).length = sg.length :=
  fun sg fs fr => filter_signal_length sg fs "bandpass" fr

/-- C2: simulating a power-law signal with duration 4 seconds, sample rate
1000 Hz and exponent -1 yields a sample sequence of length 4000
(sample rate times duration, within rounding), whatever the random state;
in particular the script's `sig` has 4000 samples. -/
theorem spec_c2 :
    (∀ st : Nat, (sim_powerlaw 4 1000 (-1) none st).1.length = 4000)
    ∧ nSamples 4 1000 = 4 * 1000
    ∧ sig.length = 4000 := by
  have hn : nSamples 4 1000 = 4000 := by
    norm_num [nSamples]
    decide
  exact ⟨fun st => (sim_powerlaw_length 4 1000 (-1) none st).trans hn,
    by rw [hn], sig_length⟩

/-- C3: for every seed value and every fixed set of simulation parameters,
two runs that each set the process-wide random seed to that value and then
call the simulator with those parameters produce identical output sample
sequences, regardless of the random state each run started from. -/
theorem spec_c3 : ∀ (sA sB v : Nat) (d : ℚ) (fs : Nat) (e : ℚ)
    (fr : Option (Option ℚ × ℚ)),
    (sim_powerlaw d fs e fr (set_random_seed v sA)).1
      = (sim_powerlaw d fs e fr (set_random_seed v sB)).1 :=
  fun _ _ _ _ _ _ _ => rfl

/-- C4: concatenating the 2-second exponent -1.5 simulation with the
2-second exponent -1 simulation via `np.hstack` yields a composite sequence
of length 4000, and the concatenation is a simple append: the composite
equals the first sequence followed by the second (each segment having 2000
samples). -/
theorem spec_c4 :
    sig_delta_ap.length = 4000
    ∧ sig_delta_ap = sig_comp1 ++ sig_comp2
    ∧ sig_comp1.length = 2000
    ∧ sig_comp2.length = 2000 :=
  ⟨sig_delta_ap_length, sig_delta_ap_append, sig_comp1_length,
   sig_comp2_length⟩

/-- C5: iterating the band registry yields the (name, range) pairs in
exactly the configuration-table order (delta, theta, alpha, beta,
low_gamma, high_gamma), and the multi-panel loop `zip(axes, bands)` pairs
the i-th band with the i-th of the `len(bands)` pre-allocated subplot
axes, for every index, as the explicit enumeration of the pairs shows. -/
theorem spec_c5 :
    Bands.iter bands =
      [("delta", (2, 4)), ("theta", (4, 8)), ("alpha", (8, 13)),
       ("beta", (13, 30)), ("low_gamma", (30, 50)),
       ("high_gamma", (50, 150))]
    ∧ axes.length = Bands.len bands
    ∧ bandLoopPairs =
      [(0, ("delta", (2, 4))), (1, ("theta", (4, 8))),
       (2, ("alpha", (8, 13))), (3, ("beta", (13, 30))),
       (4, ("low_gamma", (30, 50))), (5, ("high_gamma", (50, 150)))] :=
  ⟨rfl, rfl, rfl⟩

/-- Each per-band filtered signal in the loop has the length of `sig`. -/
theorem band_sigs_length : ∀ bs ∈ band_sigs, bs.length = sig.length := by
  intro bs hbs
  obtain ⟨b, _, rfl⟩ := List.mem_map.1 hbs
  exact filter_signal_length sig s_rate "bandpass" b.2

/-- C6: every band in the registry satisfies low < high with both bounds
strictly positive, and the registry is never mutated: every state the
script passes through carries the registry exactly as defined. -/
theorem spec_c6 :
    (∀ b ∈ Bands.iter bands, 0 < b.2.1 ∧ 0 < b.2.2 ∧ b.2.1 < b.2.2)
    ∧ (∀ st ∈ scriptTrace, st.bandsReg = bands) := by
  refine ⟨by decide, ?_⟩
  intro st hst
  simp only [scriptTrace, List.mem_cons, List.not_mem_nil, or_false] at hst
  rcases hst with rfl | rfl | rfl | rfl | rfl | rfl | rfl | rfl | rfl | rfl
    | rfl | rfl | rfl | rfl | rfl
  all_goals rfl

/-- C6 witness: the delta band is in the registry and well-formed, and the
initial state is in the trace with the registry as defined. -/
theorem spec_c6_witness :
    (("delta", ((2 : ℚ), (4 : ℚ))) ∈ Bands.iter bands
      ∧ (0 < (2 : ℚ) ∧ 0 < (4 : ℚ) ∧ (2 : ℚ) < 4))
    ∧ (initState ∈ scriptTrace ∧ initState.bandsReg = bands) :=
  ⟨⟨by decide, spec_c6.1 ("delta", ((2 : ℚ), (4 : ℚ))) (by decide)⟩,
   ⟨List.mem_cons_self _ _, spec_c6.2 initState (List.mem_cons_self _ _)⟩⟩

/-- C7: filtering never mutates its input.  As a state transition, each of
the script's `filter_signal` calls writes only `band_sig`, leaving the
input array (`sig`, resp. `sig_delta_ap`) exactly as it was; and against an
explicit array store, a filter call leaves every existing array unchanged
and writes its result to a fresh address. -/
theorem spec_c7 : ∀ (fr : ℚ × ℚ) (st : ScriptState)
    (store : List (List ℚ)) (a : Nat),
    (stepFilterBand fr st).sigV = st.sigV
    ∧ (stepFilterBand fr st).bandSigV
        = filter_signal st.sigV s_rate "bandpass" fr
    ∧ (stepFilterComposite fr st).sigDeltaV = st.sigDeltaV
    ∧ (stepFilterComposite fr st).bandSigV
        = filter_signal st.sigDeltaV s_rate "bandpass" fr
    ∧ (filterInStore store a fr).1.take store.length = store
    ∧ (filterInStore store a fr).2 = store.length
    ∧ (filterInStore store a fr).1[(filterInStore store a fr).2]?
        = some (filter_signal (store.getD a []) s_rate "bandpass" fr) := by
  intro fr st store a
  refine ⟨rfl, rfl, rfl, rfl, List.take_left store _, rfl, ?_⟩
  show (store ++
    [filter_signal (store.getD a []) s_rate "bandpass" fr])[store.length]? = _
  rw [List.getElem?_append_right (le_refl _), Nat.sub_self]
  rfl

/-- C8: the time axis built from duration 4 s and sample rate 1000 Hz has
4000 entries, its entries are strictly increasing, and it has the same
length as every sample sequence it is paired with in a plot call. -/
theorem spec_c8 :
    times.length = 4000
    ∧ List.Pairwise (· < ·) times
    ∧ (∀ p ∈ plotCalls, p.1 = times ∧ p.2.length = times.length) := by
  refine ⟨times_length, ?_, ?_⟩
  · unfold times create_times
    rw [List.pairwise_map]
    refine (List.pairwise_lt_range _).imp ?_
    intro a b hab
    have hr : (0 : ℚ) < (s_rate : ℚ) := by norm_num [s_rate]
    exact (div_lt_div_iff_of_pos_right hr).2 (by exact_mod_cast hab)
  · intro p hp
    have hsg : sig.length = times.length := by rw [sig_length, times_length]
    have hda : sig_delta_ap.length = times.length := by
      rw [sig_delta_ap_length, times_length]
    simp only [plotCalls, List.mem_cons, List.mem_append,
      List.not_mem_nil, or_false] at hp
    rcases hp with rfl | hp
    · exact ⟨rfl, hsg⟩
    rcases hp with hp | rfl | rfl | rfl
    · obtain ⟨bs, hbs, rfl⟩ := List.mem_map.1 hp
      exact ⟨rfl, (band_sigs_length bs hbs).trans hsg⟩
    · exact ⟨rfl, hda⟩
    · exact ⟨rfl,
        (filter_signal_length sig_delta_ap s_rate "bandpass" bandsBeta).trans
          hda⟩
    · exact ⟨rfl,
        (filter_signal_length sig_delta_ap s_rate "bandpass"
          bandsHighGamma).trans hda⟩

/-- C8 witness: the first plot call pairs `times` with `sig`, and their
lengths agree. -/
theorem spec_c8_witness :
    (times, sig) ∈ plotCalls
    ∧ ((times, sig).1 = times ∧ (times, sig).2.length = times.length) :=
  ⟨List.mem_cons_self _ _, spec_c8.2.2 (times, sig) (List.mem_cons_self _ _)⟩

/-- C9: attribute-style lookup on the registry returns exactly the range of
the configuration table: `bands.beta` is [13, 30] and `bands.high_gamma` is
[50, 150], and those are the ranges the script's filter calls receive. -/
theorem spec_c9 :
    Bands.lookup bands "beta" = some (13, 30)
    ∧ Bands.lookup bands "high_gamma" = some (50, 150)
    ∧ bandsBeta = (13, 30)
    ∧ bandsHighGamma = (50, 150) := by
  decide

/-- C10: every frequency range the script passes to the band-pass filter
has its upper bound at most the Nyquist frequency 500 Hz (half the fixed
1000 Hz sample rate); indeed every registered band's upper bound is at most
high_gamma's 150 Hz, and high_gamma is in the registry. -/
theorem spec_c10 :
    (∀ b ∈ Bands.iter bands, b.2.2 ≤ (s_rate : ℚ) / 2)
    ∧ (∀ fr ∈ filterCallRanges, fr.2 ≤ (s_rate : ℚ) / 2)
    ∧ (∀ b ∈ Bands.iter bands, b.2.2 ≤ 150)
    ∧ ("high_gamma", ((50 : ℚ), (150 : ℚ))) ∈ Bands.iter bands := by
  have h2 : (s_rate : ℚ) / 2 = 500 := by norm_num [s_rate]
  rw [h2]
  decide

/-- C10 witness: the high_gamma band is registered and its upper bound,
the largest of any filter call, is at most the Nyquist frequency. -/
theorem spec_c10_witness :
    (("high_gamma", ((50 : ℚ), (150 : ℚ))) ∈ Bands.iter bands
      ∧ (150 : ℚ) ≤ (s_rate : ℚ) / 2)
    ∧ (bandsHighGamma ∈ filterCallRanges
      ∧ bandsHighGamma.2 ≤ (s_rate : ℚ) / 2) :=
  ⟨⟨by decide, spec_c10.1 ("high_gamma", ((50 : ℚ), (150 : ℚ))) (by decide)⟩,
   ⟨by decide, spec_c10.2.1 bandsHighGamma (by decide)⟩⟩
